import Mathlib

/-
Verification development for the samm2JSONata generator.

Shallow embedding of the core components:
  * parser.py    — entity flattening (`_parse_aspect`, `_extract_nested_properties`)
  * matcher.py   — greedy property matching (`match_properties`, `_find_best_match`)
  * transformer.py — transformation planning, JSONata fragment generation and
                     nested document assembly
  * generator.py — warning generation (`_generate_warnings`)

Python strings are Lean `String`s, `Optional[str]` is `Option String`,
Python floats carrying the matcher confidences are exact rationals (only the
literals 0.6/0.7/0.8/0.9/0 occur and all comparisons between them are exact
in IEEE double as well), dicts are insertion-ordered association lists.
The unbounded recursion of `_extract_nested_properties` is modelled with an
explicit depth budget (`fuel`): `none` means the recursion depth exceeded the
budget, so "diverges" = `none` for every budget.
-/

/-- Python truthiness of an `Optional[str]`: `None` and `""` are falsy. -/
def pyStrTruthy : Option String → Bool
  | none => false
  | some s => s ≠ ""

/-- The Python idiom `payload_name or local_name` (falls through on `None` and `""`). -/
def payload_or_local (payload_name : Option String) (local_name : String) : String :=
  match payload_name with
  | some s => if s = "" then local_name else s
  | none => local_name

/-- First-match association-list lookup (Python `dict` lookup / first graph triple). -/
def alookup {α : Type} : List (String × α) → String → Option α
  | [], _ => none
  | (k, v) :: rest, key => if k = key then some v else alookup rest key

/-- Association-list update: replaces the first binding of the key in place,
appends a new binding otherwise (Python `dict` assignment, insertion order kept). -/
def aset {α : Type} : List (String × α) → String → α → List (String × α)
  | [], key, v => [(key, v)]
  | (k, w) :: rest, key, v =>
    if k = key then (k, v) :: rest else (k, w) :: aset rest key v

def splitOnCharAux (sep : Char) : List Char → List Char → List (List Char)
  | [], acc => [acc.reverse]
  | c :: cs, acc =>
    if c = sep then acc.reverse :: splitOnCharAux sep cs []
    else splitOnCharAux sep cs (c :: acc)

/-- Python `s.split(sep)` for a one-character separator (never returns `[]`). -/
def splitChar (sep : Char) (s : String) : List String :=
  (splitOnCharAux sep s.toList []).map String.mk

/-- Python `sep.join(parts)`. -/
def joinSep (sep : String) : List String → String
  | [] => ""
  | [x] => x
  | x :: y :: rest => x ++ sep ++ joinSep sep (y :: rest)

/-- Python `c in s` for a one-character needle. -/
def containsChar (s : String) (c : Char) : Bool :=
  s.toList.contains c

/-- Python `s.lower()` (ASCII; non-ASCII letters are dropped by every caller anyway). -/
def lowerStr (s : String) : String :=
  String.mk (s.toList.map Char.toLower)

def beginsWith : List Char → List Char → Bool
  | [], _ => true
  | _ :: _, [] => false
  | a :: as, b :: bs => a = b && beginsWith as bs

def occursIn (needle : List Char) : List Char → Bool
  | [] => beginsWith needle []
  | c :: rest => beginsWith needle (c :: rest) || occursIn needle rest

/-- Python substring test `needle in hay`. -/
def substrB (needle hay : String) : Bool :=
  occursIn needle.toList hay.toList

/-- Removal of parenthesised spans, the semantics of `re.sub(r"\([^)]*\)", "", s)`:
left to right, a span runs from a `(` to the first `)` after it; a `(` with no
later `)` is kept verbatim.  `buf` buffers the characters seen since a still
unmatched `(`. -/
def removeParensAux : List Char → Option (List Char) → List Char
  | [], none => []
  | [], some buf => '(' :: buf.reverse
  | c :: cs, none =>
    if c = '(' then removeParensAux cs (some [])
    else c :: removeParensAux cs none
  | c :: cs, some buf =>
    if c = ')' then removeParensAux cs none
    else removeParensAux cs (some (c :: buf))

def removeParens (cs : List Char) : List Char :=
  removeParensAux cs none

/- ------------------------------------------------------------------ -/
/- models.py                                                          -/
/- ------------------------------------------------------------------ -/

/-- models.SAMMProperty.  The purely descriptive fields `description`,
`example_value` and `unit` are omitted: they are copied verbatim by the code
and inspected by nothing. -/
structure SAMMProperty where
  uri : String
  local_name : String
  preferred_name : Option String := none
  characteristic : Option String := none
  data_type : Option String := none
  optional : Bool := false
  payload_name : Option String := none
  json_path : Option String := none
  parent_property : Option String := none
  is_collection : Bool := false
  is_array_element : Bool := false
  deriving DecidableEq, Repr

/-- models.SAMMEntity. -/
structure SAMMEntity where
  uri : String
  local_name : String
  properties : List SAMMProperty := []
  deriving DecidableEq, Repr

/-- models.PropertyMapping. -/
structure PropertyMapping where
  source_property : SAMMProperty
  target_property : SAMMProperty
  mapping_method : String
  confidence : ℚ
  transformation_type : String
  jsonata_fragment : String
  deriving DecidableEq, Repr

/-- One `(source_prop, target_prop, method, confidence)` tuple of
matcher.match_properties. -/
structure MatchEntry where
  source : SAMMProperty
  target : SAMMProperty
  method : String
  confidence : ℚ
  deriving DecidableEq, Repr

/-- A generator warning record; only the `type` key is inspected anywhere,
the remaining keys are human-readable message strings. -/
structure WarningEntry where
  type : String
  deriving DecidableEq, Repr

/-- A node of the assembled transformation document: a JSONata fragment leaf
(Python `str`) or a nested container (Python `dict`). -/
inductive JValue where
  | str (s : String)
  | obj (entries : List (String × JValue))

/-- The warnings `_set_nested_path` emits through the logger. -/
inductive AssemblyWarning where
  | overwrite_non_dict (key : String)
  | skip_existing (path : String)
  deriving DecidableEq, Repr

/- ------------------------------------------------------------------ -/
/- parser.py                                                          -/
/- ------------------------------------------------------------------ -/

namespace Parser

/-- The SAMM characteristic namespace prefix (parser.py `SAMM_C`). -/
def SAMM_C : String := "urn:samm:org.eclipse.esmf.samm:characteristic:2.1.0#"

/-- parser.SAMMParser._is_collection_characteristic's closed set of collection
type URIs (Collection, Set, List, SortedSet, TimeSeries). -/
def collection_types : List String :=
  [SAMM_C ++ "Collection", SAMM_C ++ "Set", SAMM_C ++ "List",
   SAMM_C ++ "SortedSet", SAMM_C ++ "TimeSeries"]

/-- parser.SAMMParser._is_collection_characteristic, as a function of the
characteristic's declared `rdf:type` (the single `graph.value(c, RDF.type)`
result, `none` when the characteristic is untyped). -/
def is_collection_characteristic (char_type : Option String) : Bool :=
  match char_type with
  | some t => collection_types.contains t
  | none => false

/-- parser.SAMMParser._get_local_name. -/
def get_local_name (uri : String) : String :=
  if containsChar uri '#' then (splitChar '#' uri).getLastD ""
  else if containsChar uri '/' then (splitChar '/' uri).getLastD ""
  else uri

/-- Abstraction of the RDF graph as far as the flattening recursion reads it:
`char_entity` holds one pair per characteristic whose `samm:dataType` is a
non-XSD node that is typed `samm:Entity` (the successful outcomes of
`_get_entity_from_characteristic`), and `entities` holds the result of
`_parse_entity` for every entity URI occurring in the file. -/
structure ModelGraph where
  char_entity : List (String × String)
  entities : List (String × SAMMEntity)
  deriving DecidableEq, Repr

/-- parser.SAMMParser._get_entity_from_characteristic. -/
def get_entity_from_characteristic (g : ModelGraph) (c : String) : Option String :=
  alookup g.char_entity c

/-- parser.SAMMParser._parse_entity: an entity URI with no triples parses to an
entity with no properties. -/
def parse_entity (g : ModelGraph) (uri : String) : SAMMEntity :=
  (alookup g.entities uri).getD { uri := uri, local_name := get_local_name uri }

/-- parser.SAMMParser._extract_nested_properties (lines 255-312), with an
explicit recursion budget `fuel` (decremented on every recursive step):
the Python code recurses with no cycle guard, and `none` means the budget was
exceeded, so divergence of the source recursion is `none` for EVERY budget.
The list argument iterates `entity.properties`; the nested-property copy and
the recursive descent mirror the source line by line. -/
def extract_nested_properties (g : ModelGraph) :
    Nat → List SAMMProperty → String → String → Bool → Option (List SAMMProperty)
  | 0, _, _, _, _ => none
  | _ + 1, [], _, _, _ => some []
  | fuel + 1, entity_prop :: rest_props, parent_path, parent_name, parent_is_collection =>
    let child_path := parent_path ++ "." ++ payload_or_local entity_prop.payload_name entity_prop.local_name
    let nested_prop : SAMMProperty :=
      { entity_prop with
        json_path := some child_path
        parent_property := some parent_name
        is_array_element := parent_is_collection }
    let deeper : Option (List SAMMProperty) :=
      if pyStrTruthy nested_prop.characteristic then
        match get_entity_from_characteristic g (nested_prop.characteristic.getD "") with
        | some nested_entity_uri =>
          extract_nested_properties g fuel
            (parse_entity g nested_entity_uri).properties
            child_path nested_prop.local_name nested_prop.is_collection
        | none => some []
      else some []
    match deeper,
          extract_nested_properties g fuel rest_props parent_path parent_name parent_is_collection with
    | some ds, some tail => some (nested_prop :: (ds ++ tail))
    | _, _ => none

/-- The nested-extraction loop of parser.SAMMParser._parse_aspect
(lines 80-98): for each top-level property whose characteristic resolves to an
entity, extract that entity's properties as nested properties. -/
def aspect_nested (g : ModelGraph) (fuel : Nat) : List SAMMProperty → Option (List SAMMProperty)
  | [] => some []
  | prop :: rest =>
    let here : Option (List SAMMProperty) :=
      if pyStrTruthy prop.characteristic then
        match get_entity_from_characteristic g (prop.characteristic.getD "") with
        | some entity_uri =>
          extract_nested_properties g fuel (parse_entity g entity_uri).properties
            (payload_or_local prop.payload_name prop.local_name)
            prop.local_name prop.is_collection
        | none => some []
      else some []
    match here, aspect_nested g fuel rest with
    | some hs, some tail => some (hs ++ tail)
    | _, _ => none

/-- parser.SAMMParser._parse_aspect (lines 56-103), restricted to the property
flattening it performs: assign `json_path` to the top-level properties, then
append all nested properties. -/
def parse_aspect_properties (g : ModelGraph) (fuel : Nat)
    (props : List SAMMProperty) : Option (List SAMMProperty) :=
  let tops := props.map (fun p =>
    if pyStrTruthy p.json_path then p
    else { p with json_path := some (payload_or_local p.payload_name p.local_name) })
  match aspect_nested g fuel tops with
  | some nested => some (tops ++ nested)
  | none => none

end Parser

/- ------------------------------------------------------------------ -/
/- matcher.py                                                         -/
/- ------------------------------------------------------------------ -/

namespace Matcher

/-- The float literal 0.9 (exact). -/
def conf09 : ℚ := ⟨9, 10, by decide, by decide⟩
/-- The float literal 0.8 (exact). -/
def conf08 : ℚ := ⟨4, 5, by decide, by decide⟩
/-- The float literal 0.7 (exact). -/
def conf07 : ℚ := ⟨7, 10, by decide, by decide⟩

/-- matcher.PropertyMatcher.MATCHING_LEVELS. -/
def MATCHING_LEVELS : List (String × ℚ) :=
  [("characteristic_match", conf09),
   ("preferred_name_match", conf08),
   ("property_uri_match", conf07)]

/-- matcher.PropertyMatcher._normalize_name: lower-case, drop parenthesised
spans, keep only `[a-z0-9]`. -/
def normalize_name (name : String) : String :=
  String.mk ((removeParens (lowerStr name).toList).filter
    (fun c => ('a' ≤ c && c ≤ 'z') || ('0' ≤ c && c ≤ '9')))

/-- matcher.PropertyMatcher._characteristic_match. -/
def characteristic_match (source_prop target_prop : SAMMProperty) : Bool :=
  if !(pyStrTruthy source_prop.characteristic) || !(pyStrTruthy target_prop.characteristic) then
    false
  else
    source_prop.characteristic == target_prop.characteristic

/-- matcher.PropertyMatcher._preferred_name_match. -/
def preferred_name_match (source_prop target_prop : SAMMProperty) : Bool :=
  if !(pyStrTruthy source_prop.preferred_name) || !(pyStrTruthy target_prop.preferred_name) then
    false
  else
    normalize_name (source_prop.preferred_name.getD "")
      == normalize_name (target_prop.preferred_name.getD "")

/-- matcher.PropertyMatcher._property_uri_match (case-insensitive local names). -/
def property_uri_match (source_prop target_prop : SAMMProperty) : Bool :=
  lowerStr source_prop.local_name == lowerStr target_prop.local_name

/-- matcher.PropertyMatcher._find_best_match: the three tiers in priority
order. -/
def find_best_match (source_prop target_prop : SAMMProperty) : Option (String × ℚ) :=
  if characteristic_match source_prop target_prop then
    some ("characteristic_match", (alookup MATCHING_LEVELS "characteristic_match").getD 0)
  else if preferred_name_match source_prop target_prop then
    some ("preferred_name_match", (alookup MATCHING_LEVELS "preferred_name_match").getD 0)
  else if property_uri_match source_prop target_prop then
    some ("property_uri_match", (alookup MATCHING_LEVELS "property_uri_match").getD 0)
  else
    none

/-- The inner `for target_prop in target_properties` loop of
matcher.PropertyMatcher.match_properties: scan the targets, skip the ones
already consumed, keep the strictly best candidate (ties keep the earlier
target, as `confidence > best_confidence` is strict). `best` carries
`(best_match, best_method, best_confidence)`; `none` is the initial
`best_match = None / best_confidence = 0.0` state. -/
def scan_targets (source_prop : SAMMProperty) (matched_targets : List String) :
    List SAMMProperty → Option (SAMMProperty × String × ℚ) → Option (SAMMProperty × String × ℚ)
  | [], best => best
  | target_prop :: rest, best =>
    if matched_targets.contains target_prop.uri then
      scan_targets source_prop matched_targets rest best
    else
      match find_best_match source_prop target_prop with
      | none => scan_targets source_prop matched_targets rest best
      | some (method, confidence) =>
        let best_confidence : ℚ :=
          match best with
          | none => 0
          | some (_, _, c) => c
        if best_confidence < confidence then
          scan_targets source_prop matched_targets rest (some (target_prop, method, confidence))
        else
          scan_targets source_prop matched_targets rest best

/-- The outer `for source_prop in source_properties` loop of
matcher.PropertyMatcher.match_properties, threading `matched_targets`. -/
def match_go (confidence_threshold : ℚ) (target_properties : List SAMMProperty) :
    List SAMMProperty → List String → List MatchEntry
  | [], _ => []
  | source_prop :: rest, matched_targets =>
    match scan_targets source_prop matched_targets target_properties none with
    | some (best_match, best_method, best_confidence) =>
      if confidence_threshold ≤ best_confidence then
        ⟨source_prop, best_match, best_method, best_confidence⟩ ::
          match_go confidence_threshold target_properties rest (best_match.uri :: matched_targets)
      else
        match_go confidence_threshold target_properties rest matched_targets
    | none => match_go confidence_threshold target_properties rest matched_targets

/-- matcher.PropertyMatcher.match_properties (lines 30-81). -/
def match_properties (confidence_threshold : ℚ)
    (source_properties target_properties : List SAMMProperty) : List MatchEntry :=
  match_go confidence_threshold target_properties source_properties []

end Matcher

/- ------------------------------------------------------------------ -/
/- transformer.py                                                     -/
/- ------------------------------------------------------------------ -/

namespace Transformer

/-- transformer.Transformer.TYPE_CAST_MAP (lines 15-25), keys verbatim. -/
def TYPE_CAST_MAP : List (String × String) :=
  [("string", "$string"),
   ("integer", "$number"),
   ("int", "$number"),
   ("float", "$number"),
   ("double", "$number"),
   ("decimal", "$number"),
   ("boolean", "$boolean"),
   ("nonNegativeInteger", "$number"),
   ("positiveInteger", "$number")]

/-- transformer.Transformer._normalize_type (lines 187-205): strip the URI up
to `#` (or `/`), then lower-case. -/
def normalize_type (data_type : String) : String :=
  let type_name :=
    if containsChar data_type '#' then (splitChar '#' data_type).getLastD ""
    else if containsChar data_type '/' then (splitChar '/' data_type).getLastD ""
    else data_type
  lowerStr type_name

/-- transformer.Transformer._can_cast's numeric type set (lower-case names). -/
def numeric_types : List String :=
  ["integer", "int", "float", "double", "decimal",
   "nonnegativeinteger", "positiveinteger"]

/-- transformer.Transformer._can_cast (lines 207-244). -/
def can_cast (source_type target_type : String) : Bool :=
  if numeric_types.contains source_type && numeric_types.contains target_type then true
  else if source_type == "string" then true
  else if target_type == "string" then true
  else if source_type == "boolean" || target_type == "boolean" then true
  else false

/-- transformer.Transformer._is_collection_characteristic (lines 246-257): a
SUBSTRING test of the characteristic URI against four names (note: no
TimeSeries, and no look at the declared graph type — contrast
`Parser.is_collection_characteristic`). -/
def is_collection_characteristic (characteristic : String) : Bool :=
  (["List", "Set", "Collection", "SortedSet"]).any
    (fun ct => substrB ct characteristic)

/-- The characteristic-difference branch of
transformer.Transformer._determine_transformation_type (lines 89-103), the
shared continuation every earlier branch falls through to. -/
def characteristic_branch (source_prop target_prop : SAMMProperty) : String :=
  if pyStrTruthy source_prop.characteristic && pyStrTruthy target_prop.characteristic then
    if source_prop.characteristic ≠ target_prop.characteristic then
      if is_collection_characteristic (source_prop.characteristic.getD "")
          != is_collection_characteristic (target_prop.characteristic.getD "") then
        "structure_transform"
      else "direct"
    else "direct"
  else "direct"

/-- transformer.Transformer._determine_transformation_type (lines 65-103).
An unresolvable cast only logs a warning and falls THROUGH to the
characteristic branch — it does not return "direct" directly. -/
def determine_transformation_type (source_prop target_prop : SAMMProperty) : String :=
  if pyStrTruthy source_prop.data_type && pyStrTruthy target_prop.data_type then
    let source_type := normalize_type (source_prop.data_type.getD "")
    let target_type := normalize_type (target_prop.data_type.getD "")
    if source_type ≠ target_type then
      if can_cast source_type target_type then "type_cast"
      else characteristic_branch source_prop target_prop
    else characteristic_branch source_prop target_prop
  else characteristic_branch source_prop target_prop

/-- True exactly when the `logger.warning("Cannot cast ...")` call of
_determine_transformation_type (line 84) fires. -/
def cast_warning (source_prop target_prop : SAMMProperty) : Bool :=
  pyStrTruthy source_prop.data_type && pyStrTruthy target_prop.data_type &&
    (normalize_type (source_prop.data_type.getD "")
      != normalize_type (target_prop.data_type.getD "")) &&
    !(can_cast (normalize_type (source_prop.data_type.getD ""))
        (normalize_type (target_prop.data_type.getD "")))

/-- The `[0]`-insertion loop of _generate_jsonata_expression (lines 140-146):
append "[0]" to the first path segment equal to the parent name. -/
def insert_first_index (parent_name : String) : List String → List String
  | [] => []
  | part :: rest =>
    if part = parent_name then (part ++ "[0]") :: rest
    else part :: insert_first_index parent_name rest

/-- transformer.Transformer._generate_jsonata_expression (lines 105-185). -/
def generate_jsonata_expression (source_prop target_prop : SAMMProperty)
    (transformation_type : String) : String :=
  let source_path0 :=
    if pyStrTruthy source_prop.json_path then source_prop.json_path.getD ""
    else payload_or_local source_prop.payload_name source_prop.local_name
  let source_path :=
    if source_prop.is_array_element && pyStrTruthy source_prop.parent_property
        && !target_prop.is_array_element then
      joinSep "." (insert_first_index (source_prop.parent_property.getD "")
        (splitChar '.' source_path0))
    else source_path0
  let base_expr := "$." ++ source_path
  if transformation_type = "direct" then base_expr
  else if transformation_type = "type_cast" then
    let target_type := normalize_type (target_prop.data_type.getD "")
    match alookup TYPE_CAST_MAP target_type with
    | some cast_function => cast_function ++ "(" ++ base_expr ++ ")"
    | none => base_expr
  else if transformation_type = "structure_transform" then
    if source_prop.is_array_element && !target_prop.is_array_element then base_expr
    else if !source_prop.is_array_element && target_prop.is_array_element then
      "[" ++ base_expr ++ "]"
    else base_expr
  else base_expr

/-- transformer.Transformer.create_mapping (lines 30-63). -/
def create_mapping (source_prop target_prop : SAMMProperty)
    (method : String) (confidence : ℚ) : PropertyMapping :=
  let transformation_type := determine_transformation_type source_prop target_prop
  { source_property := source_prop
    target_property := target_prop
    mapping_method := method
    confidence := confidence
    transformation_type := transformation_type
    jsonata_fragment := generate_jsonata_expression source_prop target_prop transformation_type }

/-- transformer.Transformer._set_nested_path (lines 286-317) on an already
split key list; the second component collects the `logger.warning` emissions.
Intermediate segments: a missing key or a non-dict value becomes a fresh dict
(with a warning in the non-dict case).  Final segment: an existing dict is
kept and the value discarded (with a warning), anything else is overwritten. -/
def set_nested_keys : List (String × JValue) → List String → String → String →
    List (String × JValue) × List AssemblyWarning
  | obj, [], _, _ => (obj, [])
  | obj, [k], value, path =>
    match alookup obj k with
    | some (JValue.obj _) => (obj, [AssemblyWarning.skip_existing path])
    | _ => (aset obj k (JValue.str value), [])
  | obj, k :: k' :: rest, value, path =>
    let sub : List (String × JValue) × List AssemblyWarning :=
      match alookup obj k with
      | some (JValue.obj entries) => (entries, [])
      | some (JValue.str _) => ([], [AssemblyWarning.overwrite_non_dict k])
      | none => ([], [])
    let deeper := set_nested_keys sub.1 (k' :: rest) value path
    (aset obj k (JValue.obj deeper.1), sub.2 ++ deeper.2)

/-- transformer.Transformer._set_nested_path on a dot-separated path. -/
def set_nested_path (obj : List (String × JValue)) (path : String) (value : String) :
    List (String × JValue) × List AssemblyWarning :=
  set_nested_keys obj (splitChar '.' path) value path

/-- transformer.Transformer.build_complete_transformation (lines 259-284),
with the logged warnings collected alongside the document. -/
def build_complete_transformation (mappings : List PropertyMapping) :
    List (String × JValue) × List AssemblyWarning :=
  mappings.foldl (fun acc mapping =>
    let target_prop := mapping.target_property
    let target_path :=
      if pyStrTruthy target_prop.json_path then target_prop.json_path.getD ""
      else payload_or_local target_prop.payload_name target_prop.local_name
    let step := set_nested_path acc.1 target_path mapping.jsonata_fragment
    (step.1, acc.2 ++ step.2)) ([], [])

end Transformer

/- ------------------------------------------------------------------ -/
/- generator.py                                                       -/
/- ------------------------------------------------------------------ -/

namespace Generator

/-- generator.TransformationGenerator._generate_warnings (lines 151-193):
one low_confidence entry per mapping with confidence < 0.7, then one
unmapped_source / unmapped_target entry when the respective name list is
non-empty. -/
def generate_warnings (mappings : List PropertyMapping)
    (unmapped_source unmapped_target : List String) : List WarningEntry :=
  ((mappings.filter (fun m => m.confidence < Matcher.conf07)).map
      (fun _ => ({ type := "low_confidence" } : WarningEntry)))
    ++ (if unmapped_source ≠ [] then [({ type := "unmapped_source" } : WarningEntry)] else [])
    ++ (if unmapped_target ≠ [] then [({ type := "unmapped_target" } : WarningEntry)] else [])

end Generator

/- ------------------------------------------------------------------ -/
/- Observation helpers (used only to state properties)                -/
/- ------------------------------------------------------------------ -/

/-- Whether an optional document node is a container (Python
`isinstance(x, dict)` on a present key). -/
def is_container : Option JValue → Bool
  | some (JValue.obj _) => true
  | _ => false

/-- Look up the value stored at a non-empty key sequence in a document,
descending through containers. -/
def lookup_path : List (String × JValue) → List String → Option JValue
  | _, [] => none
  | obj, [k] => alookup obj k
  | obj, k :: k' :: rest =>
    match alookup obj k with
    | some (JValue.obj entries) => lookup_path entries (k' :: rest)
    | _ => none

/- ------------------------------------------------------------------ -/
/- Concrete fixtures for counterexamples and witnesses                -/
/- ------------------------------------------------------------------ -/

/-- The float literal 0.6 (the default confidence threshold), exact. -/
def conf06 : ℚ := ⟨3, 5, by decide, by decide⟩

/-- An entity property whose characteristic's data type points back to the
entity that owns the property: a reference cycle of length 1. -/
def cyc_prop : SAMMProperty :=
  { uri := "urn:test#eProp", local_name := "eProp",
    characteristic := some "urn:test#EChar", data_type := some "urn:test#E" }

def cyc_entity : SAMMEntity :=
  { uri := "urn:test#E", local_name := "E", properties := [cyc_prop] }

def cyc_graph : Parser.ModelGraph :=
  { char_entity := [("urn:test#EChar", "urn:test#E")],
    entities := [("urn:test#E", cyc_entity)] }

/-- Collection-typed top-level property referencing entity E1. -/
def c2_p0 : SAMMProperty :=
  { uri := "urn:t#p0", local_name := "p0",
    characteristic := some "urn:t#C0", is_collection := true }

/-- Scalar entity-typed property of E1 referencing entity E2. -/
def c2_p1 : SAMMProperty :=
  { uri := "urn:t#p1", local_name := "p1", characteristic := some "urn:t#C1" }

/-- Plain property of E2. -/
def c2_p2 : SAMMProperty :=
  { uri := "urn:t#p2", local_name := "p2" }

def c2_E1 : SAMMEntity :=
  { uri := "urn:t#E1", local_name := "E1", properties := [c2_p1] }

def c2_E2 : SAMMEntity :=
  { uri := "urn:t#E2", local_name := "E2", properties := [c2_p2] }

def c2_graph : Parser.ModelGraph :=
  { char_entity := [("urn:t#C0", "urn:t#E1"), ("urn:t#C1", "urn:t#E2")],
    entities := [("urn:t#E1", c2_E1), ("urn:t#E2", c2_E2)] }

def c2_top : SAMMProperty := { c2_p0 with json_path := some "p0" }

def c2_n1 : SAMMProperty :=
  { c2_p1 with
    json_path := some "p0.p1"
    parent_property := some "p0"
    is_array_element := true }

def c2_n2 : SAMMProperty :=
  { c2_p2 with
    json_path := some "p0.p1.p2"
    parent_property := some "p1"
    is_array_element := false }

/-- Two distinct top-level properties carrying the same name, plus one with an
empty local name (as produced for a URI ending in its separator). -/
def c7_x1 : SAMMProperty := { uri := "urn:t#x1", local_name := "x" }
def c7_x2 : SAMMProperty := { uri := "urn:t#x2", local_name := "x" }
def c7_xe : SAMMProperty := { uri := "urn:t#", local_name := "" }

def c7_graph : Parser.ModelGraph := { char_entity := [], entities := [] }

/-- Matched pair whose target's primitive type is xsd:nonNegativeInteger. -/
def c3_source : SAMMProperty :=
  { uri := "urn:t#qty_s", local_name := "qty",
    data_type := some "http://www.w3.org/2001/XMLSchema#float",
    json_path := some "qty" }

def c3_target : SAMMProperty :=
  { uri := "urn:t#qty_t", local_name := "qty",
    data_type := some "http://www.w3.org/2001/XMLSchema#nonNegativeInteger",
    json_path := some "qty" }

/-- Characteristics that are both scalar by declared graph type, one of whose
URIs happens to contain the word "Set" as a substring. -/
def c4_source : SAMMProperty :=
  { uri := "urn:t#s4", local_name := "s4", characteristic := some "urn:t#Settings" }

def c4_target : SAMMProperty :=
  { uri := "urn:t#t4", local_name := "t4", characteristic := some "urn:t#Other" }

/-- Pair with differing, non-castable primitive types and structurally
different characteristics. -/
def c5_source : SAMMProperty :=
  { uri := "urn:t#s5", local_name := "s5",
    data_type := some "http://www.w3.org/2001/XMLSchema#date",
    characteristic := some "urn:t#ThingList" }

def c5_target : SAMMProperty :=
  { uri := "urn:t#t5", local_name := "t5",
    data_type := some "http://www.w3.org/2001/XMLSchema#anyURI",
    characteristic := some "urn:t#Thing" }

/-- Two distinct source records sharing one URI, and two targets they match. -/
def c6_s1 : SAMMProperty := { uri := "urn:m#s", local_name := "alpha" }
def c6_s2 : SAMMProperty :=
  { uri := "urn:m#s", local_name := "alpha", preferred_name := some "Alpha" }
def c6_t1 : SAMMProperty := { uri := "urn:m#t1", local_name := "alpha" }
def c6_t2 : SAMMProperty := { uri := "urn:m#t2", local_name := "alpha" }

/-- Mapping whose target path is `a`. -/
def c8_map_a : PropertyMapping :=
  { source_property := { uri := "urn:t#sa", local_name := "sa", json_path := some "src.a" }
    target_property := { uri := "urn:t#ta", local_name := "a", json_path := some "a" }
    mapping_method := "property_uri_match"
    confidence := Matcher.conf07
    transformation_type := "direct"
    jsonata_fragment := "$.src.a" }

/-- Mapping whose target path is `a.b`, assembled after `c8_map_a`. -/
def c8_map_ab : PropertyMapping :=
  { source_property := { uri := "urn:t#sb", local_name := "sb", json_path := some "src.b" }
    target_property := { uri := "urn:t#tb", local_name := "b", json_path := some "a.b" }
    mapping_method := "property_uri_match"
    confidence := Matcher.conf07
    transformation_type := "direct"
    jsonata_fragment := "$.src.b" }

/-- A document with an unrelated top-level entry and an unrelated entry inside
the container the insertion path traverses. -/
def c10_doc : List (String × JValue) :=
  [("x", JValue.str "1"),
   ("a", JValue.obj [("c", JValue.str "2"), ("b", JValue.str "3")])]

/- ------------------------------------------------------------------ -/
/- General lemmas about the helpers                                   -/
/- ------------------------------------------------------------------ -/

theorem alookup_mem {α : Type} (l : List (String × α)) (key : String) (v : α)
    (h : alookup l key = some v) : (key, v) ∈ l := by
  induction l with
  | nil => simp [alookup] at h
  | cons kv rest ih =>
    obtain ⟨k, w⟩ := kv
    simp only [alookup] at h
    by_cases hk : k = key
    · subst hk
      rw [if_pos rfl] at h
      injection h with h
      subst h
      exact List.mem_cons_self _ _
    · rw [if_neg hk] at h
      exact List.mem_cons_of_mem _ (ih h)

theorem alookup_aset_self {α : Type} (l : List (String × α)) (key : String) (v : α) :
    alookup (aset l key v) key = some v := by
  induction l with
  | nil => simp [aset, alookup]
  | cons kv rest ih =>
    obtain ⟨k, w⟩ := kv
    by_cases hk : k = key
    · simp [aset, alookup, hk]
    · simp [aset, alookup, hk, ih]

theorem alookup_aset_ne {α : Type} (l : List (String × α)) (key key' : String) (v : α)
    (h : key' ≠ key) : alookup (aset l key v) key' = alookup l key' := by
  have hne : ¬ key = key' := fun hh => h hh.symm
  induction l with
  | nil =>
    simp only [aset, alookup]
    rw [if_neg hne]
  | cons kv rest ih =>
    obtain ⟨k, w⟩ := kv
    by_cases hk : k = key
    · subst hk
      simp only [aset, if_pos rfl, alookup]
      rw [if_neg hne, if_neg hne]
    · simp only [aset, if_neg hk, alookup]
      by_cases hk' : k = key'
      · simp [hk']
      · simp [hk', ih]

theorem append_dot_ne_empty (a b : String) : a ++ "." ++ b ≠ "" := by
  intro h
  have hl := congrArg String.length h
  simp [String.length_append] at hl
  exact absurd hl.1.2 (by decide)

theorem pyStrTruthy_some {o : Option String} (h : pyStrTruthy o = true) :
    ∃ s, o = some s ∧ s ≠ "" := by
  cases o with
  | none => simp [pyStrTruthy] at h
  | some s => exact ⟨s, rfl, by simpa [pyStrTruthy] using h⟩

theorem conf07_eq_div : Matcher.conf07 = 7 / 10 := by
  unfold Matcher.conf07
  rw [Rat.mk'_eq_divInt, Rat.divInt_eq_div]
  norm_num

theorem conf08_eq_div : Matcher.conf08 = 4 / 5 := by
  unfold Matcher.conf08
  rw [Rat.mk'_eq_divInt, Rat.divInt_eq_div]
  norm_num

theorem conf09_eq_div : Matcher.conf09 = 9 / 10 := by
  unfold Matcher.conf09
  rw [Rat.mk'_eq_divInt, Rat.divInt_eq_div]
  norm_num

/- ------------------------------------------------------------------ -/
/- C1                                                                 -/
/- ------------------------------------------------------------------ -/

theorem c1_aux :
    ∀ (fuel : Nat) (parent_path parent_name : String) (b : Bool),
      Parser.extract_nested_properties cyc_graph fuel [cyc_prop]
        parent_path parent_name b = none := by
  intro fuel
  induction fuel with
  | zero =>
    intro parent_path parent_name b
    rfl
  | succ f ih =>
    intro parent_path parent_name b
    simp only [cyc_graph, cyc_entity, cyc_prop] at ih ⊢
    simp +decide [Parser.extract_nested_properties, Parser.get_entity_from_characteristic,
      Parser.parse_entity, alookup, pyStrTruthy, payload_or_local, ih]

/-- C1: `_extract_nested_properties` does NOT maintain a recursion-stack set of
Entity identifiers and does NOT stop on a revisited Entity: on the length-1
reference cycle `cyc_graph` (entity `urn:test#E` whose property's
characteristic data-types back to `urn:test#E`) the recursion exceeds every
depth budget, i.e. the Python code recurses unboundedly instead of
terminating. -/
theorem c1_flattening_diverges_on_cycle :
    ∀ (fuel : Nat) (parent_path parent_name : String) (parent_is_collection : Bool),
      Parser.extract_nested_properties cyc_graph fuel cyc_entity.properties
        parent_path parent_name parent_is_collection = none := by
  intro fuel parent_path parent_name b
  have h := c1_aux fuel parent_path parent_name b
  simpa [cyc_entity] using h

/- ------------------------------------------------------------------ -/
/- C2                                                                 -/
/- ------------------------------------------------------------------ -/

/-- C2 counterexample: in the three-level model `c2_graph` (collection `p0`
→ entity E1 with scalar `p1` → entity E2 with `p2`), the deepest property
gets `is_array_element = false`, although its parent `p1` has
`is_array_element = true`: the recursion passes only the parent's
`is_collection`, never OR'd with the parent's own `is_array_element`. -/
theorem c2_counterexample :
    Parser.parse_aspect_properties c2_graph 4 [c2_p0] = some [c2_top, c2_n1, c2_n2]
    ∧ c2_n2.parent_property = some c2_n1.local_name
    ∧ c2_n1.is_array_element = true
    ∧ c2_n1.is_collection = false
    ∧ c2_n2.is_array_element ≠ (c2_n1.is_collection || c2_n1.is_array_element) := by
  decide

/-- C2 amended: a nested Property's `is_array_element` equals the
`parent_is_collection` argument of the call that created it, and recursive
calls pass only the child's own `is_collection`; hence whenever a flattened
Property has `is_array_element = true`, either it is a direct child of the
call (and the call's flag was true) or its immediate parent property — a
property of the iterated list or of some entity in the graph — is itself
collection-typed.  The flag does NOT persist through scalar entity levels. -/
theorem c2_is_array_element_from_immediate_parent :
    ∀ (g : Parser.ModelGraph) (fuel : Nat) (props : List SAMMProperty)
      (parent_path parent_name : String) (parent_is_collection : Bool)
      (l : List SAMMProperty),
      Parser.extract_nested_properties g fuel props parent_path parent_name
        parent_is_collection = some l →
      ∀ q ∈ l, q.is_array_element = true →
        (q.parent_property = some parent_name ∧ parent_is_collection = true) ∨
        (∃ p ∈ props, q.parent_property = some p.local_name ∧ p.is_collection = true) ∨
        (∃ e : SAMMEntity, (∃ euri, (euri, e) ∈ g.entities) ∧
          ∃ p ∈ e.properties, q.parent_property = some p.local_name ∧ p.is_collection = true) := by
  intro g fuel
  induction fuel with
  | zero =>
    intro props parent_path parent_name b l h
    simp [Parser.extract_nested_properties] at h
  | succ f ih =>
    intro props parent_path parent_name b l h q hq hflag
    cases props with
    | nil =>
      simp only [Parser.extract_nested_properties, Option.some.injEq] at h
      subst h
      simp at hq
    | cons p ps =>
      simp only [Parser.extract_nested_properties] at h
      by_cases hc : pyStrTruthy p.characteristic = true
      · simp only [hc, if_true] at h
        cases hge : Parser.get_entity_from_characteristic g (p.characteristic.getD "") with
        | none =>
          simp only [hge] at h
          cases ht : Parser.extract_nested_properties g f ps parent_path parent_name b with
          | none => simp [ht] at h
          | some tail =>
            simp only [ht, List.nil_append, Option.some.injEq] at h
            subst h
            rcases List.mem_cons.mp hq with rfl | hq'
            · exact Or.inl ⟨rfl, hflag⟩
            · rcases ih ps parent_path parent_name b tail ht q hq' hflag with h1 | ⟨p', hp', hpar⟩ | h3
              · exact Or.inl h1
              · exact Or.inr (Or.inl ⟨p', List.mem_cons_of_mem _ hp', hpar⟩)
              · exact Or.inr (Or.inr h3)
        | some entity_uri =>
          simp only [hge] at h
          cases hdeep : Parser.extract_nested_properties g f
              (Parser.parse_entity g entity_uri).properties
              (parent_path ++ "." ++ payload_or_local p.payload_name p.local_name)
              p.local_name p.is_collection with
          | none => simp [hdeep] at h
          | some ds =>
            simp only [hdeep] at h
            cases ht : Parser.extract_nested_properties g f ps parent_path parent_name b with
            | none => simp [ht] at h
            | some tail =>
              simp only [ht, Option.some.injEq] at h
              subst h
              rcases List.mem_cons.mp hq with rfl | hq'
              · exact Or.inl ⟨rfl, hflag⟩
              · rcases List.mem_append.mp hq' with hqd | hqt
                · rcases ih _ _ _ _ _ hdeep q hqd hflag with ⟨hpar, hcol⟩ | ⟨p', hp', hpar⟩ | h3
                  · exact Or.inr (Or.inl ⟨p, List.mem_cons_self _ _, hpar, hcol⟩)
                  · unfold Parser.parse_entity at hp'
                    cases he : alookup g.entities entity_uri with
                    | none => rw [he] at hp'; simp at hp'
                    | some e =>
                      rw [he] at hp'
                      exact Or.inr (Or.inr ⟨e, ⟨entity_uri, alookup_mem _ _ _ he⟩, p', hp', hpar⟩)
                  · exact Or.inr (Or.inr h3)
                · rcases ih ps parent_path parent_name b tail ht q hqt hflag with h1 | ⟨p', hp', hpar⟩ | h3
                  · exact Or.inl h1
                  · exact Or.inr (Or.inl ⟨p', List.mem_cons_of_mem _ hp', hpar⟩)
                  · exact Or.inr (Or.inr h3)
      · simp only [hc, Bool.false_eq_true, if_false] at h
        cases ht : Parser.extract_nested_properties g f ps parent_path parent_name b with
        | none => simp [ht] at h
        | some tail =>
          simp only [ht, List.nil_append, Option.some.injEq] at h
          subst h
          rcases List.mem_cons.mp hq with rfl | hq'
          · exact Or.inl ⟨rfl, hflag⟩
          · rcases ih ps parent_path parent_name b tail ht q hq' hflag with h1 | ⟨p', hp', hpar⟩ | h3
            · exact Or.inl h1
            · exact Or.inr (Or.inl ⟨p', List.mem_cons_of_mem _ hp', hpar⟩)
            · exact Or.inr (Or.inr h3)

/-- Witness for the amended C2 theorem: the direct child `c2_n1` of the
collection-typed call is flagged, through the first disjunct. -/
theorem c2_is_array_element_from_immediate_parent_witness :
    (c2_n1.parent_property = some "p0" ∧ true = true) ∨
    (∃ p ∈ [c2_p1], c2_n1.parent_property = some p.local_name ∧ p.is_collection = true) ∨
    (∃ e : SAMMEntity, (∃ euri, (euri, e) ∈ c2_graph.entities) ∧
      ∃ p ∈ e.properties, c2_n1.parent_property = some p.local_name ∧ p.is_collection = true) :=
  c2_is_array_element_from_immediate_parent c2_graph 3 [c2_p1] "p0" "p0" true
    [c2_n1, c2_n2] (by decide) c2_n1 (by decide) (by decide)

/- ------------------------------------------------------------------ -/
/- C7                                                                 -/
/- ------------------------------------------------------------------ -/

/-- C7 counterexample: two distinct top-level properties with the same local
name flatten to the SAME `json_path` "x" (uniqueness is not enforced), and a
top-level property with an empty local name and no payload name gets the
EMPTY `json_path` "". -/
theorem c7_counterexample :
    Parser.parse_aspect_properties c7_graph 1 [c7_x1, c7_x2, c7_xe]
      = some [{ c7_x1 with json_path := some "x" }, { c7_x2 with json_path := some "x" },
              { c7_xe with json_path := some "" }]
    ∧ ({ c7_x1 with json_path := some "x" } : SAMMProperty).json_path
        = ({ c7_x2 with json_path := some "x" } : SAMMProperty).json_path
    ∧ c7_x1.uri ≠ c7_x2.uri
    ∧ ({ c7_xe with json_path := some "" } : SAMMProperty).json_path = some "" := by
  decide

theorem extract_json_path_some_nonempty :
    ∀ (g : Parser.ModelGraph) (fuel : Nat) (props : List SAMMProperty)
      (parent_path parent_name : String) (b : Bool) (l : List SAMMProperty),
      Parser.extract_nested_properties g fuel props parent_path parent_name b = some l →
      ∀ q ∈ l, ∃ s, q.json_path = some s ∧ s ≠ "" := by
  intro g fuel
  induction fuel with
  | zero =>
    intro props parent_path parent_name b l h
    simp [Parser.extract_nested_properties] at h
  | succ f ih =>
    intro props parent_path parent_name b l h q hq
    cases props with
    | nil =>
      simp only [Parser.extract_nested_properties, Option.some.injEq] at h
      subst h
      simp at hq
    | cons p ps =>
      simp only [Parser.extract_nested_properties] at h
      by_cases hc : pyStrTruthy p.characteristic = true
      · simp only [hc, if_true] at h
        cases hge : Parser.get_entity_from_characteristic g (p.characteristic.getD "") with
        | none =>
          simp only [hge] at h
          cases ht : Parser.extract_nested_properties g f ps parent_path parent_name b with
          | none => simp [ht] at h
          | some tail =>
            simp only [ht, List.nil_append, Option.some.injEq] at h
            subst h
            rcases List.mem_cons.mp hq with rfl | hq'
            · exact ⟨_, rfl, append_dot_ne_empty _ _⟩
            · exact ih ps parent_path parent_name b tail ht q hq'
        | some entity_uri =>
          simp only [hge] at h
          cases hdeep : Parser.extract_nested_properties g f
              (Parser.parse_entity g entity_uri).properties
              (parent_path ++ "." ++ payload_or_local p.payload_name p.local_name)
              p.local_name p.is_collection with
          | none => simp [hdeep] at h
          | some ds =>
            simp only [hdeep] at h
            cases ht : Parser.extract_nested_properties g f ps parent_path parent_name b with
            | none => simp [ht] at h
            | some tail =>
              simp only [ht, Option.some.injEq] at h
              subst h
              rcases List.mem_cons.mp hq with rfl | hq'
              · exact ⟨_, rfl, append_dot_ne_empty _ _⟩
              · rcases List.mem_append.mp hq' with hqd | hqt
                · exact ih _ _ _ _ _ hdeep q hqd
                · exact ih ps parent_path parent_name b tail ht q hqt
      · simp only [hc, Bool.false_eq_true, if_false] at h
        cases ht : Parser.extract_nested_properties g f ps parent_path parent_name b with
        | none => simp [ht] at h
        | some tail =>
          simp only [ht, List.nil_append, Option.some.injEq] at h
          subst h
          rcases List.mem_cons.mp hq with rfl | hq'
          · exact ⟨_, rfl, append_dot_ne_empty _ _⟩
          · exact ih ps parent_path parent_name b tail ht q hq'

theorem aspect_nested_json_path_some_nonempty :
    ∀ (g : Parser.ModelGraph) (fuel : Nat) (props l : List SAMMProperty),
      Parser.aspect_nested g fuel props = some l →
      ∀ q ∈ l, ∃ s, q.json_path = some s ∧ s ≠ "" := by
  intro g fuel props
  induction props with
  | nil =>
    intro l h
    simp only [Parser.aspect_nested, Option.some.injEq] at h
    subst h
    simp
  | cons p ps ih =>
    intro l h q hq
    simp only [Parser.aspect_nested] at h
    by_cases hc : pyStrTruthy p.characteristic = true
    · simp only [hc, if_true] at h
      cases hge : Parser.get_entity_from_characteristic g (p.characteristic.getD "") with
      | none =>
        simp only [hge] at h
        cases ht : Parser.aspect_nested g fuel ps with
        | none => simp [ht] at h
        | some tail =>
          simp only [ht, List.nil_append, Option.some.injEq] at h
          subst h
          exact ih tail ht q hq
      | some entity_uri =>
        simp only [hge] at h
        cases hhere : Parser.extract_nested_properties g fuel
            (Parser.parse_entity g entity_uri).properties
            (payload_or_local p.payload_name p.local_name)
            p.local_name p.is_collection with
        | none => simp [hhere] at h
        | some hs =>
          rw [hhere] at h
          cases ht : Parser.aspect_nested g fuel ps with
          | none => simp [ht] at h
          | some tail =>
            rw [ht] at h
            simp only [Option.some.injEq] at h
            subst h
            rcases List.mem_append.mp hq with hqh | hqt
            · exact extract_json_path_some_nonempty g fuel _ _ _ _ hs hhere q hqh
            · exact ih tail ht q hqt
    · simp only [hc, Bool.false_eq_true, if_false] at h
      cases ht : Parser.aspect_nested g fuel ps with
      | none => simp [ht] at h
      | some tail =>
        simp only [ht, List.nil_append, Option.some.injEq] at h
        subst h
        exact ih tail ht q hq

/-- C7 amended: every Property of a successful Aspect flattening has a
`json_path` of the form `some s`; nested properties always have non-empty
paths, and top-level paths are non-empty provided each top-level property
whose `json_path` is unset resolves (payload name or local name) to a
non-empty name.  Uniqueness of paths is NOT guaranteed by the code. -/
theorem c7_json_path_some_nonempty :
    ∀ (g : Parser.ModelGraph) (fuel : Nat) (props l : List SAMMProperty),
      Parser.parse_aspect_properties g fuel props = some l →
      (∀ p ∈ props, pyStrTruthy p.json_path = false →
        payload_or_local p.payload_name p.local_name ≠ "") →
      ∀ q ∈ l, ∃ s, q.json_path = some s ∧ s ≠ "" := by
  intro g fuel props l h hnames q hq
  unfold Parser.parse_aspect_properties at h
  cases hn : Parser.aspect_nested g fuel (props.map (fun p =>
      if pyStrTruthy p.json_path then p
      else { p with json_path := some (payload_or_local p.payload_name p.local_name) })) with
  | none => simp [hn] at h
  | some nested =>
    simp only [hn, Option.some.injEq] at h
    subst h
    rcases List.mem_append.mp hq with hqt | hqn
    · rcases List.mem_map.mp hqt with ⟨p, hp, hpq⟩
      by_cases hpt : pyStrTruthy p.json_path = true
      · rw [if_pos hpt] at hpq
        subst hpq
        exact pyStrTruthy_some hpt
      · rw [if_neg hpt] at hpq
        subst hpq
        exact ⟨_, rfl, hnames p hp (Bool.not_eq_true _ ▸ (eq_false_of_ne_true hpt))⟩
    · exact aspect_nested_json_path_some_nonempty g fuel _ nested hn q hqn

/-- Witness for the amended C7 theorem at the concrete one-property model. -/
theorem c7_json_path_some_nonempty_witness :
    ∃ s, ({ c7_x1 with json_path := some "x" } : SAMMProperty).json_path = some s ∧ s ≠ "" :=
  c7_json_path_some_nonempty c7_graph 1 [c7_x1]
    [{ c7_x1 with json_path := some "x" }] (by decide)
    (by decide) ({ c7_x1 with json_path := some "x" }) (by decide)

/- ------------------------------------------------------------------ -/
/- C3                                                                 -/
/- ------------------------------------------------------------------ -/

/-- C3: the cast table contains an entry for `nonNegativeInteger`, but
`_normalize_type` lower-cases the target type to `nonnegativeinteger`, which
misses the mixed-case table key, so a `type_cast` mapping onto
xsd:nonNegativeInteger emits the UNCAST base expression `$.qty` instead of
`$number($.qty)`: the table entry is unreachable. -/
theorem c3_nonnegativeinteger_cast_unreachable :
    Transformer.determine_transformation_type c3_source c3_target = "type_cast"
    ∧ Transformer.generate_jsonata_expression c3_source c3_target "type_cast" = "$.qty"
    ∧ alookup Transformer.TYPE_CAST_MAP "nonNegativeInteger" = some "$number"
    ∧ Transformer.normalize_type "http://www.w3.org/2001/XMLSchema#nonNegativeInteger"
        = "nonnegativeinteger"
    ∧ alookup Transformer.TYPE_CAST_MAP "nonnegativeinteger" = none := by
  decide

/- ------------------------------------------------------------------ -/
/- C4                                                                 -/
/- ------------------------------------------------------------------ -/

/-- C4 counterexample: the transform planner's collection test is a SUBSTRING
test on the characteristic URI, not the closed declared-graph-type set of the
parser: the scalar characteristic `urn:t#Settings` (declared type
`urn:t#SingleCharacteristicType`, not in the closed set) is classified as a
collection because its URI contains "Set", so the pair
(`c4_source`, `c4_target`) is given `structure_transform`; conversely a
TimeSeries-typed characteristic `urn:t#speedHistory` is NOT classified as a
collection by the planner although TimeSeries is in the parser's closed set. -/
theorem c4_counterexample :
    Transformer.determine_transformation_type c4_source c4_target = "structure_transform"
    ∧ Transformer.is_collection_characteristic "urn:t#Settings" = true
    ∧ Parser.is_collection_characteristic (some "urn:t#SingleCharacteristicType") = false
    ∧ Parser.is_collection_characteristic (some (Parser.SAMM_C ++ "TimeSeries")) = true
    ∧ Transformer.is_collection_characteristic "urn:t#speedHistory" = false := by
  decide

/-- C4 amended: in the transform planner, a characteristic counts as
collection-typed iff its URI contains one of the substrings List / Set /
Collection / SortedSet (TimeSeries absent, declared graph type not consulted),
and `structure_transform` is emitted iff the type-cast branch did not fire,
both characteristics are present (non-empty), they differ, and exactly one
side passes this substring test. -/
theorem c4_structure_transform_characterization :
    ∀ source_prop target_prop : SAMMProperty,
      Transformer.determine_transformation_type source_prop target_prop = "structure_transform"
      ↔ (¬ (pyStrTruthy source_prop.data_type = true
              ∧ pyStrTruthy target_prop.data_type = true
              ∧ Transformer.normalize_type (source_prop.data_type.getD "")
                  ≠ Transformer.normalize_type (target_prop.data_type.getD "")
              ∧ Transformer.can_cast
                  (Transformer.normalize_type (source_prop.data_type.getD ""))
                  (Transformer.normalize_type (target_prop.data_type.getD "")) = true)
          ∧ pyStrTruthy source_prop.characteristic = true
          ∧ pyStrTruthy target_prop.characteristic = true
          ∧ source_prop.characteristic ≠ target_prop.characteristic
          ∧ Transformer.is_collection_characteristic (source_prop.characteristic.getD "")
              ≠ Transformer.is_collection_characteristic (target_prop.characteristic.getD "")) := by
  intro source_prop target_prop
  unfold Transformer.determine_transformation_type Transformer.characteristic_branch
  split_ifs <;> simp_all [bne_iff_ne] <;> split_ifs <;> simp_all

/- ------------------------------------------------------------------ -/
/- Matcher lemmas                                                     -/
/- ------------------------------------------------------------------ -/

theorem find_best_match_cases (s t : SAMMProperty) (m : String) (c : ℚ)
    (h : Matcher.find_best_match s t = some (m, c)) :
    (m = "characteristic_match" ∧ c = Matcher.conf09)
    ∨ (m = "preferred_name_match" ∧ c = Matcher.conf08)
    ∨ (m = "property_uri_match" ∧ c = Matcher.conf07) := by
  unfold Matcher.find_best_match at h
  split_ifs at h <;> simp_all [Matcher.MATCHING_LEVELS, alookup]

theorem scan_targets_inv (s : SAMMProperty) (matched : List String)
    (ts : List SAMMProperty) :
    ∀ (best : Option (SAMMProperty × String × ℚ)) (out : SAMMProperty × String × ℚ),
      (∀ x, best = some x → matched.contains x.1.uri = false
        ∧ Matcher.find_best_match s x.1 = some (x.2.1, x.2.2)) →
      Matcher.scan_targets s matched ts best = some out →
      matched.contains out.1.uri = false
      ∧ Matcher.find_best_match s out.1 = some (out.2.1, out.2.2) := by
  induction ts with
  | nil =>
    intro best out hb h
    simp only [Matcher.scan_targets] at h
    exact hb out h
  | cons t ts ih =>
    intro best out hb h
    simp only [Matcher.scan_targets] at h
    cases hm : matched.contains t.uri with
    | true =>
      simp only [hm, if_true] at h
      exact ih best out hb h
    | false =>
      simp only [hm, Bool.false_eq_true, if_false] at h
      cases hf : Matcher.find_best_match s t with
      | none =>
        simp only [hf] at h
        exact ih best out hb h
      | some mc =>
        obtain ⟨m, c⟩ := mc
        simp only [hf] at h
        split at h
        · refine ih _ out ?_ h
          intro x hx
          injection hx with hx
          subst hx
          exact ⟨hm, hf⟩
        · exact ih best out hb h

theorem match_go_entry_spec (thr : ℚ) (targets : List SAMMProperty) :
    ∀ (ss : List SAMMProperty) (matched : List String) (r : MatchEntry),
      r ∈ Matcher.match_go thr targets ss matched →
      Matcher.find_best_match r.source r.target = some (r.method, r.confidence)
      ∧ thr ≤ r.confidence
      ∧ matched.contains r.target.uri = false := by
  intro ss
  induction ss with
  | nil =>
    intro matched r hr
    simp [Matcher.match_go] at hr
  | cons s ss ih =>
    intro matched r hr
    simp only [Matcher.match_go] at hr
    cases hscan : Matcher.scan_targets s matched targets none with
    | none =>
      simp only [hscan] at hr
      exact ih matched r hr
    | some out =>
      obtain ⟨t, m, c⟩ := out
      simp only [hscan] at hr
      split at hr
      · rename_i hthr
        rcases List.mem_cons.mp hr with rfl | hr'
        · have hs := scan_targets_inv s matched targets none (t, m, c)
            (fun x hx => Option.noConfusion hx) hscan
          exact ⟨hs.2, hthr, hs.1⟩
        · have h2 := ih (t.uri :: matched) r hr'
          refine ⟨h2.1, h2.2.1, ?_⟩
          have h3 := h2.2.2
          simp only [List.contains_cons, Bool.or_eq_false_iff] at h3
          exact h3.2
      · exact ih matched r hr

theorem match_go_source_mem (thr : ℚ) (targets : List SAMMProperty) :
    ∀ (ss : List SAMMProperty) (matched : List String) (r : MatchEntry),
      r ∈ Matcher.match_go thr targets ss matched → r.source ∈ ss := by
  intro ss
  induction ss with
  | nil =>
    intro matched r hr
    simp [Matcher.match_go] at hr
  | cons s ss ih =>
    intro matched r hr
    simp only [Matcher.match_go] at hr
    cases hscan : Matcher.scan_targets s matched targets none with
    | none =>
      simp only [hscan] at hr
      exact List.mem_cons_of_mem _ (ih _ r hr)
    | some out =>
      obtain ⟨t, m, c⟩ := out
      simp only [hscan] at hr
      split at hr
      · rcases List.mem_cons.mp hr with rfl | hr'
        · exact List.mem_cons_self _ _
        · exact List.mem_cons_of_mem _ (ih _ r hr')
      · exact List.mem_cons_of_mem _ (ih _ r hr)

theorem match_go_target_nodup (thr : ℚ) (targets : List SAMMProperty) :
    ∀ (ss : List SAMMProperty) (matched : List String),
      ((Matcher.match_go thr targets ss matched).map (fun r => r.target.uri)).Nodup := by
  intro ss
  induction ss with
  | nil =>
    intro matched
    simp [Matcher.match_go]
  | cons s ss ih =>
    intro matched
    simp only [Matcher.match_go]
    cases hscan : Matcher.scan_targets s matched targets none with
    | none =>
      simp only [hscan]
      exact ih matched
    | some out =>
      obtain ⟨t, m, c⟩ := out
      simp only [hscan]
      split
      · simp only [List.map_cons, List.nodup_cons]
        constructor
        · intro hmem
          rcases List.mem_map.mp hmem with ⟨r, hr, hru⟩
          have h3 := (match_go_entry_spec thr targets ss (t.uri :: matched) r hr).2.2
          rw [hru] at h3
          simp [List.contains_cons] at h3
        · exact ih (t.uri :: matched)
      · exact ih matched

theorem match_go_source_nodup (thr : ℚ) (targets : List SAMMProperty) :
    ∀ (ss : List SAMMProperty) (matched : List String),
      (ss.map SAMMProperty.uri).Nodup →
      ((Matcher.match_go thr targets ss matched).map (fun r => r.source.uri)).Nodup := by
  intro ss
  induction ss with
  | nil =>
    intro matched _
    simp [Matcher.match_go]
  | cons s ss ih =>
    intro matched hnd
    simp only [List.map_cons, List.nodup_cons] at hnd
    obtain ⟨hs_not, hnd'⟩ := hnd
    simp only [Matcher.match_go]
    cases hscan : Matcher.scan_targets s matched targets none with
    | none =>
      simp only [hscan]
      exact ih matched hnd'
    | some out =>
      obtain ⟨t, m, c⟩ := out
      simp only [hscan]
      split
      · simp only [List.map_cons, List.nodup_cons]
        constructor
        · intro hmem
          rcases List.mem_map.mp hmem with ⟨r, hr, hru⟩
          have hsrc := match_go_source_mem thr targets ss (t.uri :: matched) r hr
          exact hs_not (by rw [← hru]; exact List.mem_map_of_mem _ hsrc)
        · exact ih (t.uri :: matched) hnd'
      · exact ih matched hnd'

/- ------------------------------------------------------------------ -/
/- C6                                                                 -/
/- ------------------------------------------------------------------ -/

/-- C6 counterexample: two DISTINCT source records that share one URI each
produce a Match (the matcher never deduplicates sources by URI), so the
source URI `urn:m#s` appears in two Matches of one run. -/
theorem c6_counterexample :
    Matcher.match_properties conf06 [c6_s1, c6_s2] [c6_t1, c6_t2]
      = [⟨c6_s1, c6_t1, "property_uri_match", Matcher.conf07⟩,
         ⟨c6_s2, c6_t2, "property_uri_match", Matcher.conf07⟩]
    ∧ c6_s1.uri = c6_s2.uri
    ∧ c6_s1 ≠ c6_s2 := by
  decide

/-- C6 amended: every Match has a method from the three-element set and a
confidence in [0,1] at least the threshold; target URIs are pairwise distinct
even with duplicate target records; source URIs are pairwise distinct only
when the input source URIs are pairwise distinct (each source RECORD still
yields at most one Match). -/
theorem c6_match_invariants :
    ∀ (confidence_threshold : ℚ) (source_properties target_properties : List SAMMProperty),
      (∀ r ∈ Matcher.match_properties confidence_threshold source_properties target_properties,
        (r.method = "characteristic_match" ∨ r.method = "preferred_name_match"
          ∨ r.method = "property_uri_match")
        ∧ 0 ≤ r.confidence ∧ r.confidence ≤ 1 ∧ confidence_threshold ≤ r.confidence)
      ∧ ((Matcher.match_properties confidence_threshold source_properties
            target_properties).map (fun r => r.target.uri)).Nodup
      ∧ ((source_properties.map SAMMProperty.uri).Nodup →
          ((Matcher.match_properties confidence_threshold source_properties
              target_properties).map (fun r => r.source.uri)).Nodup) := by
  intro thr sources targets
  refine ⟨?_, match_go_target_nodup thr targets sources [],
    fun h => match_go_source_nodup thr targets sources [] h⟩
  intro r hr
  have h1 := match_go_entry_spec thr targets sources [] r hr
  rcases find_best_match_cases _ _ _ _ h1.1 with ⟨hm, hc⟩ | ⟨hm, hc⟩ | ⟨hm, hc⟩ <;>
    exact ⟨by tauto, by rw [hc]; decide, by rw [hc]; decide, h1.2.1⟩

/-- Witness for the amended C6 theorem: source-URI distinctness via the
third conjunct at a concrete run with distinct source URIs. -/
theorem c6_match_invariants_witness :
    ((Matcher.match_properties conf06 [c6_s1] [c6_t1]).map (fun r => r.source.uri)).Nodup :=
  (c6_match_invariants conf06 [c6_s1] [c6_t1]).2.2 (by decide)

/- ------------------------------------------------------------------ -/
/- C9                                                                 -/
/- ------------------------------------------------------------------ -/

/-- C9: every Match confidence is exactly 0.7, 0.8 or 0.9, so the generator's
low-confidence branch (confidence < 0.7) never fires for matcher-produced
mappings and the warnings list never contains a low_confidence entry. -/
theorem c9_no_low_confidence_warning :
    ∀ (confidence_threshold : ℚ) (source_properties target_properties : List SAMMProperty)
      (unmapped_source unmapped_target : List String),
      (∀ r ∈ Matcher.match_properties confidence_threshold source_properties target_properties,
        r.confidence = 7/10 ∨ r.confidence = 4/5 ∨ r.confidence = 9/10)
      ∧ (∀ w ∈ Generator.generate_warnings
            ((Matcher.match_properties confidence_threshold source_properties
                target_properties).map
              (fun r => Transformer.create_mapping r.source r.target r.method r.confidence))
            unmapped_source unmapped_target,
          w.type ≠ "low_confidence") := by
  intro thr sources targets us ut
  have hconf : ∀ r ∈ Matcher.match_properties thr sources targets,
      r.confidence = Matcher.conf07 ∨ r.confidence = Matcher.conf08
        ∨ r.confidence = Matcher.conf09 := by
    intro r hr
    have h1 := match_go_entry_spec thr targets sources [] r hr
    rcases find_best_match_cases _ _ _ _ h1.1 with ⟨_, hc⟩ | ⟨_, hc⟩ | ⟨_, hc⟩
    · exact Or.inr (Or.inr hc)
    · exact Or.inr (Or.inl hc)
    · exact Or.inl hc
  constructor
  · intro r hr
    rcases hconf r hr with hc | hc | hc
    · exact Or.inl (by rw [hc, conf07_eq_div])
    · exact Or.inr (Or.inl (by rw [hc, conf08_eq_div]))
    · exact Or.inr (Or.inr (by rw [hc, conf09_eq_div]))
  · intro w hw
    unfold Generator.generate_warnings at hw
    have hfilter : (((Matcher.match_properties thr sources targets).map
        (fun r => Transformer.create_mapping r.source r.target r.method r.confidence)).filter
          (fun m => m.confidence < Matcher.conf07)) = [] := by
      rw [List.filter_eq_nil_iff]
      intro m hm
      rcases List.mem_map.mp hm with ⟨r, hr, hmr⟩
      subst hmr
      rcases hconf r hr with hc | hc | hc <;>
        simp only [Transformer.create_mapping, hc] <;> decide
    rw [hfilter] at hw
    simp only [List.map_nil, List.nil_append] at hw
    rcases List.mem_append.mp hw with hw1 | hw2
    · split at hw1
      · simp only [List.mem_singleton] at hw1
        subst hw1
        decide
      · simp at hw1
    · split at hw2
      · simp only [List.mem_singleton] at hw2
        subst hw2
        decide
      · simp at hw2

/-- Witness for C9: a concrete run produces an unmapped_target warning and
the theorem applies to it. -/
theorem c9_no_low_confidence_warning_witness :
    ({ type := "unmapped_target" } : WarningEntry) ∈
        Generator.generate_warnings
          ((Matcher.match_properties conf06 [c6_s1] [c6_t1]).map
            (fun r => Transformer.create_mapping r.source r.target r.method r.confidence))
          [] ["leftover"]
    ∧ ({ type := "unmapped_target" } : WarningEntry).type ≠ "low_confidence" :=
  ⟨by decide,
   (c9_no_low_confidence_warning conf06 [c6_s1] [c6_t1] [] ["leftover"]).2
      ({ type := "unmapped_target" } : WarningEntry) (by decide)⟩

/- ------------------------------------------------------------------ -/
/- C5                                                                 -/
/- ------------------------------------------------------------------ -/

/-- C5 counterexample: the pair (`c5_source` : xsd:date on a List-named
characteristic, `c5_target` : xsd:anyURI on a scalar characteristic) has
differing, non-castable normalized types, yet the planner emits
`structure_transform`, not `direct`: the failed cast only logs a warning and
falls THROUGH to the characteristic-structure branch. -/
theorem c5_counterexample :
    Transformer.normalize_type (c5_source.data_type.getD "") = "date"
    ∧ Transformer.normalize_type (c5_target.data_type.getD "") = "anyuri"
    ∧ Transformer.can_cast "date" "anyuri" = false
    ∧ Transformer.cast_warning c5_source c5_target = true
    ∧ Transformer.determine_transformation_type c5_source c5_target = "structure_transform" := by
  decide

/-- C5 amended: for differing non-castable normalized data types the planner
logs the cast warning and never emits `type_cast` and never fails, but the
result is `direct` only when the characteristic-structure branch does not
fire; otherwise it is `structure_transform`. -/
theorem c5_uncastable_never_type_cast :
    ∀ source_prop target_prop : SAMMProperty,
      pyStrTruthy source_prop.data_type = true →
      pyStrTruthy target_prop.data_type = true →
      Transformer.normalize_type (source_prop.data_type.getD "")
        ≠ Transformer.normalize_type (target_prop.data_type.getD "") →
      Transformer.can_cast
        (Transformer.normalize_type (source_prop.data_type.getD ""))
        (Transformer.normalize_type (target_prop.data_type.getD "")) = false →
      Transformer.determine_transformation_type source_prop target_prop ≠ "type_cast"
      ∧ (Transformer.determine_transformation_type source_prop target_prop = "direct"
          ∨ Transformer.determine_transformation_type source_prop target_prop
              = "structure_transform")
      ∧ Transformer.cast_warning source_prop target_prop = true := by
  intro source_prop target_prop h1 h2 h3 h4
  unfold Transformer.determine_transformation_type Transformer.characteristic_branch
    Transformer.cast_warning
  split_ifs <;> simp_all [bne_iff_ne]

/-- Witness for the amended C5 theorem at the concrete pair. -/
theorem c5_uncastable_never_type_cast_witness :
    Transformer.determine_transformation_type c5_source c5_target ≠ "type_cast"
    ∧ (Transformer.determine_transformation_type c5_source c5_target = "direct"
        ∨ Transformer.determine_transformation_type c5_source c5_target
            = "structure_transform")
    ∧ Transformer.cast_warning c5_source c5_target = true :=
  c5_uncastable_never_type_cast c5_source c5_target
    (by decide) (by decide) (by decide) (by decide)

/- ------------------------------------------------------------------ -/
/- C8                                                                 -/
/- ------------------------------------------------------------------ -/

/-- C8: document assembly collision rules, in insertion order: an intermediate
segment holding a non-container value is overwritten with a container (warning
logged); a final segment already holding a container keeps it, and the new
terminal fragment is discarded (warning logged); assembling the `a` Mapping
then the `a.b` Mapping leaves `a` a container holding `b`, with a warning for
the displaced scalar at `a`. -/
theorem c8_assembly_collision_rules :
    (∀ (obj : List (String × JValue)) (k : String) (ks : List String)
        (value path s : String),
      alookup obj k = some (JValue.str s) → ks ≠ [] →
      is_container (alookup (Transformer.set_nested_keys obj (k :: ks) value path).1 k) = true
      ∧ AssemblyWarning.overwrite_non_dict k
          ∈ (Transformer.set_nested_keys obj (k :: ks) value path).2)
    ∧ (∀ (obj : List (String × JValue)) (k : String) (value path : String)
        (entries : List (String × JValue)),
      alookup obj k = some (JValue.obj entries) →
      (Transformer.set_nested_keys obj [k] value path).1 = obj
      ∧ (Transformer.set_nested_keys obj [k] value path).2
          = [AssemblyWarning.skip_existing path])
    ∧ Transformer.build_complete_transformation [c8_map_a, c8_map_ab]
        = ([("a", JValue.obj [("b", JValue.str "$.src.b")])],
           [AssemblyWarning.overwrite_non_dict "a"]) := by
  refine ⟨?_, ?_, by rfl⟩
  · intro obj k ks value path s hlk hne
    cases ks with
    | nil => exact absurd rfl hne
    | cons k' rest =>
      simp only [Transformer.set_nested_keys, hlk]
      constructor
      · rw [alookup_aset_self]
        rfl
      · exact List.mem_cons_self _ _
  · intro obj k value path entries hlk
    simp [Transformer.set_nested_keys, hlk]

/-- Witness for C8 at a one-entry document holding a scalar at the
intermediate segment. -/
theorem c8_assembly_collision_rules_witness :
    is_container (alookup (Transformer.set_nested_keys [("a", JValue.str "x")]
        ["a", "b"] "v" "a.b").1 "a") = true
    ∧ AssemblyWarning.overwrite_non_dict "a"
        ∈ (Transformer.set_nested_keys [("a", JValue.str "x")] ["a", "b"] "v" "a.b").2 :=
  c8_assembly_collision_rules.1 [("a", JValue.str "x")] "a" ["b"] "v" "a.b" "x"
    rfl (by decide)

/- ------------------------------------------------------------------ -/
/- C10                                                                -/
/- ------------------------------------------------------------------ -/

theorem set_nested_keys_alookup_other :
    ∀ (keys : List String) (obj : List (String × JValue)) (value path key : String),
      (∀ k0 kt, keys = k0 :: kt → key ≠ k0) →
      alookup (Transformer.set_nested_keys obj keys value path).1 key = alookup obj key := by
  intro keys obj value path key hne
  cases keys with
  | nil => rfl
  | cons k0 kt =>
    have hkey : key ≠ k0 := hne k0 kt rfl
    cases kt with
    | nil =>
      simp only [Transformer.set_nested_keys]
      cases hl0 : alookup obj k0 with
      | none =>
        simp only [hl0]
        exact alookup_aset_ne _ _ _ _ hkey
      | some v =>
        cases v with
        | str s =>
          simp only [hl0]
          exact alookup_aset_ne _ _ _ _ hkey
        | obj entries =>
          simp only [hl0]
    | cons kt0 kt' =>
      simp only [Transformer.set_nested_keys]
      exact alookup_aset_ne _ _ _ _ hkey

/-- C10: the frame property of `_set_nested_path`: any entry of the document,
at any depth, whose own key is not one of the inserted path's segments keeps
its value; only nodes along the walked path can change. -/
theorem c10_set_nested_path_frame :
    ∀ (ks keys : List String) (obj : List (String × JValue))
      (value path k : String) (w : JValue),
      k ∉ keys →
      lookup_path obj (ks ++ [k]) = some w →
      lookup_path (Transformer.set_nested_keys obj keys value path).1 (ks ++ [k])
        = some w := by
  intro ks
  induction ks with
  | nil =>
    intro keys obj value path k w hnotin hlk
    simp only [List.nil_append, lookup_path] at hlk ⊢
    rw [set_nested_keys_alookup_other keys obj value path k ?_]
    · exact hlk
    · intro k0 kt he hk
      subst he
      exact hnotin (hk ▸ List.mem_cons_self _ _)
  | cons k1 ks' ih =>
    intro keys obj value path k w hnotin hlk
    obtain ⟨k2, rest2, hsplit⟩ : ∃ k2 rest2, ks' ++ [k] = k2 :: rest2 := by
      cases ks' with
      | nil => exact ⟨k, [], rfl⟩
      | cons a b => exact ⟨a, b ++ [k], rfl⟩
    simp only [List.cons_append, hsplit, lookup_path] at hlk ⊢
    cases ha : alookup obj k1 with
    | none => rw [ha] at hlk; simp at hlk
    | some v =>
      cases v with
      | str s => rw [ha] at hlk; simp at hlk
      | obj sm =>
        rw [ha] at hlk
        cases keys with
        | nil =>
          simp only [Transformer.set_nested_keys]
          rw [ha]
          exact hlk
        | cons k0 kt =>
          by_cases hk10 : k1 = k0
          · subst hk10
            cases kt with
            | nil =>
              simp only [Transformer.set_nested_keys, ha]
              exact hlk
            | cons kt0 kt' =>
              simp only [Transformer.set_nested_keys, ha]
              rw [alookup_aset_self]
              have hknotkt : k ∉ kt0 :: kt' :=
                fun hm => hnotin (List.mem_cons_of_mem _ hm)
              have := ih (kt0 :: kt') sm value path k w hknotkt
                (by rw [hsplit]; exact hlk)
              rw [hsplit] at this
              exact this
          · rw [set_nested_keys_alookup_other (k0 :: kt) obj value path k1
              (fun a b hab hk => hk10 (by injection hab with h1 _; rw [hk, h1]))]
            rw [ha]
            exact hlk

/-- Witness for C10: the unrelated entry at `a.c` is untouched by inserting at
path `a.b`. -/
theorem c10_set_nested_path_frame_witness :
    lookup_path (Transformer.set_nested_keys c10_doc ["a", "b"] "v" "a.b").1 ["a", "c"]
      = some (JValue.str "2") :=
  c10_set_nested_path_frame ["a"] ["a", "b"] c10_doc "v" "a.b" "c" (JValue.str "2")
    (by decide) rfl
